import Mathlib

/-!
Shallow embedding of the real-time gesture pipeline
(src/backend/gesture_recognizer.py, src/backend/hand_tracker.py,
src/backend/app.py) and verification of the specification claims.

Coordinates and thresholds are modelled as exact real numbers; Python
list indexing `xs[i]`, which raises `IndexError` when out of bounds, is
modelled with `List.get?`, and a function that can raise returns an
`Option` (with `Option.none` standing for the raised exception).
-/

noncomputable section

/-- One normalized 3-D hand landmark, mirroring the dictionaries with
keys x, y, z built in HandTracker.get_landmarks. -/
structure Landmark where
  x : ℝ
  y : ℝ
  z : ℝ

/-- The gesture type strings produced by GestureRecognizer. -/
inductive GestureType where
  | point
  | pinch
  | two_fingers
  | open_palm
  | none
deriving DecidableEq

/-- A gesture dictionary as returned by GestureRecognizer._classify_gesture
and GestureRecognizer.recognize.  Each optional field models a key that is
present in some of the returned dictionaries and absent in others. -/
structure Gesture where
  type : GestureType
  position : Option (ℝ × ℝ) := Option.none
  direction : Option (ℝ × ℝ) := Option.none
  distance : Option ℝ := Option.none
  fingers_extended : Option ℕ := Option.none
  extended_fingers : Option ℕ := Option.none
  confidence : Option ℝ := Option.none

/-- The finger-state dictionary built by GestureRecognizer._detect_fingers_up. -/
structure Fingers where
  thumb : Bool
  index : Bool
  middle : Bool
  ring : Bool
  pinky : Bool

/-- A hand-data dictionary as built by HandTracker.get_landmarks. -/
structure Hand where
  landmarks : List Landmark
  label : String
  wrist : Landmark
  index_tip : Landmark
  thumb_tip : Landmark
  middle_tip : Landmark

/-- Mutable state of GestureRecognizer: the fields last_gesture and
gesture_confidence set in GestureRecognizer.__init__. -/
structure RecState where
  last_gesture : Option GestureType
  gesture_confidence : ℝ

/-- Threshold self.pinch_threshold = 0.05 from GestureRecognizer.__init__. -/
def pinch_threshold : ℝ := 0.05

/-- Threshold self.finger_up_threshold = 0.1 from GestureRecognizer.__init__
(declared by the source but never read). -/
def finger_up_threshold : ℝ := 0.1

/-- Threshold self.min_confidence = 0.2 from GestureRecognizer.__init__. -/
def min_confidence : ℝ := 0.2

/-- Step self.confidence_increment = 0.15 from GestureRecognizer.__init__. -/
def confidence_increment : ℝ := 0.15

/-- Step self.confidence_decrement = 0.15 from GestureRecognizer.__init__. -/
def confidence_decrement : ℝ := 0.15

/-- The recognizer state right after GestureRecognizer.__init__:
last_gesture = None, gesture_confidence = 0. -/
def initial_state : RecState := ⟨Option.none, 0⟩

/-- GestureRecognizer._calculate_distance: 3-D Euclidean distance
sqrt(dx*dx + dy*dy + dz*dz). -/
def calculate_distance (point1 point2 : Landmark) : ℝ :=
  Real.sqrt ((point1.x - point2.x) * (point1.x - point2.x) +
             (point1.y - point2.y) * (point1.y - point2.y) +
             (point1.z - point2.z) * (point1.z - point2.z))

/-- GestureRecognizer._detect_fingers_up.  Thumb: tip (4) x greater than
IP joint (3) x; other fingers: tip y less than PIP y. -/
def detect_fingers_up (landmarks : List Landmark) : Option Fingers :=
  match landmarks.get? 4, landmarks.get? 3, landmarks.get? 8, landmarks.get? 6,
        landmarks.get? 12, landmarks.get? 10, landmarks.get? 16, landmarks.get? 14,
        landmarks.get? 20, landmarks.get? 18 with
  | some l4, some l3, some l8, some l6, some l12, some l10,
    some l16, some l14, some l20, some l18 =>
      some { thumb := decide (l4.x > l3.x)
             index := decide (l8.y < l6.y)
             middle := decide (l12.y < l10.y)
             ring := decide (l16.y < l14.y)
             pinky := decide (l20.y < l18.y) }
  | _, _, _, _, _, _, _, _, _, _ => Option.none

/-- The extended-finger count computed in GestureRecognizer._classify_gesture:
sum of the five finger booleans. -/
def extended_count (fingers_up : Fingers) : ℕ :=
  (if fingers_up.thumb then 1 else 0) + (if fingers_up.index then 1 else 0) +
  (if fingers_up.middle then 1 else 0) + (if fingers_up.ring then 1 else 0) +
  (if fingers_up.pinky then 1 else 0)

/-- GestureRecognizer._classify_gesture: priority-ordered rule classifier.
Point is checked first, then pinch, then two-fingers, then open palm,
with a final fallback gesture of type none. -/
def classify_gesture (fingers_up : Fingers) (landmarks : List Landmark) : Option Gesture :=
  match landmarks.get? 4, landmarks.get? 8, landmarks.get? 12, landmarks.get? 0 with
  | some thumb_tip, some index_tip, some middle_tip, some _wrist =>
    let thumb_index_distance := calculate_distance thumb_tip index_tip
    let count := extended_count fingers_up
    if fingers_up.index && !fingers_up.middle && !fingers_up.ring && !fingers_up.pinky
        && decide (thumb_index_distance ≥ pinch_threshold) then
      match landmarks.get? 5 with
      | some mcp =>
          some { type := GestureType.point
                 position := some (index_tip.x, index_tip.y)
                 direction := some (index_tip.x - mcp.x, index_tip.y - mcp.y) }
      | Option.none => Option.none
    else if thumb_index_distance < pinch_threshold then
      some { type := GestureType.pinch
             distance := some thumb_index_distance
             position := some ((thumb_tip.x + index_tip.x) / 2,
                               (thumb_tip.y + index_tip.y) / 2) }
    else if fingers_up.index && fingers_up.middle && !fingers_up.ring && !fingers_up.pinky then
      some { type := GestureType.two_fingers
             position := some ((index_tip.x + middle_tip.x) / 2,
                               (index_tip.y + middle_tip.y) / 2)
             distance := some (calculate_distance index_tip middle_tip) }
    else if 4 ≤ count then
      some { type := GestureType.open_palm
             position := some (((landmarks.take 5).map Landmark.x).sum / 5,
                               ((landmarks.take 5).map Landmark.y).sum / 5)
             fingers_extended := some count }
    else
      some { type := GestureType.none
             extended_fingers := some count }
  | _, _, _, _ => Option.none

/-- Lines 44-48 of GestureRecognizer.recognize: detect the finger states of
a landmark list and classify it into a gesture candidate. -/
def classify_landmarks (landmarks : List Landmark) : Option Gesture :=
  match detect_fingers_up landmarks with
  | some fingers_up => classify_gesture fingers_up landmarks
  | Option.none => Option.none

/-- The gesture candidate computed in GestureRecognizer.recognize from the
primary hand hands_data[0]. -/
def candidate (hands_data : List Hand) : Option Gesture :=
  match hands_data.get? 0 with
  | some hand => classify_landmarks hand.landmarks
  | Option.none => Option.none

/-- Lines 50-55 of GestureRecognizer.recognize: increment the confidence
(clamped at 1.0) when the candidate type matches self.last_gesture, else
decrement it (clamped at 0.0) and overwrite self.last_gesture with the
candidate type. -/
def update_confidence (st : RecState) (gesture : Gesture) : RecState :=
  if some gesture.type = st.last_gesture then
    { st with gesture_confidence := min 1.0 (st.gesture_confidence + confidence_increment) }
  else
    { last_gesture := some gesture.type
      gesture_confidence := max 0.0 (st.gesture_confidence - confidence_decrement) }

/-- The canonical no-gesture dictionary returned by GestureRecognizer.recognize
when the candidate is suppressed: literal python dict with type none and
confidence 0. -/
def none_event : Gesture :=
  { type := GestureType.none, confidence := some 0 }

/-- Lines 50-65 of GestureRecognizer.recognize: update the confidence state
and decide whether to emit the candidate (with confidence attached) or the
canonical none event. -/
def recognize_emit (st : RecState) (gesture : Gesture) : Option Gesture × RecState :=
  let st2 := update_confidence st gesture
  if gesture.type ≠ GestureType.none then
    let enriched := { gesture with confidence := some st2.gesture_confidence }
    if st2.gesture_confidence ≥ min_confidence ∨ some gesture.type ≠ st2.last_gesture then
      (some enriched, st2)
    else
      (some none_event, st2)
  else
    (some none_event, st2)

/-- GestureRecognizer.recognize.  Returns the emitted python value (None for
an empty hands list, otherwise a gesture dictionary) together with the
updated recognizer state; the outer Option models a raised exception. -/
def recognize (st : RecState) (hands_data : List Hand) :
    Option (Option Gesture × RecState) :=
  if hands_data.length = 0 then some (Option.none, st)
  else
    match candidate hands_data with
    | some gesture => some (recognize_emit st gesture)
    | Option.none => Option.none

/-- Landmark read with a default, used to state theorems about in-bounds
indices of a landmark list. -/
def lm (l : List Landmark) (i : ℕ) : Landmark := l.getD i ⟨0, 0, 0⟩

/-- Landmark at the origin, used for concrete witness inputs. -/
def lz : Landmark := ⟨0, 0, 0⟩

/-- Concrete 21-landmark list: index PIP (6) above index tip (8), all other
tips level with their PIP joints, thumb tip 0.3 away from index tip. -/
def c1lms : List Landmark :=
  [lz, lz, lz, lz, lz, lz, ⟨0, 1, 0⟩, lz, ⟨3/10, 0, 0⟩, lz, lz,
   lz, lz, lz, lz, lz, lz, lz, lz, lz, lz]

/-- Concrete 21-landmark list with every landmark at the origin, so the
thumb-tip-to-index-tip distance is zero. -/
def zero_landmarks : List Landmark :=
  [lz, lz, lz, lz, lz, lz, lz, lz, lz, lz, lz,
   lz, lz, lz, lz, lz, lz, lz, lz, lz, lz]

/-- Modelled from the spec's words for the refinement comparison of claim C3:
the emission step of a variant recognizer that emits the enriched candidate
if and only if the updated confidence is at least min_confidence, with no
disjunct comparing the candidate type against the already-updated
last-gesture state. -/
def recognize_emit_variant (st : RecState) (gesture : Gesture) : Option Gesture × RecState :=
  let st2 := update_confidence st gesture
  if gesture.type ≠ GestureType.none then
    let enriched := { gesture with confidence := some st2.gesture_confidence }
    if st2.gesture_confidence ≥ min_confidence then
      (some enriched, st2)
    else
      (some none_event, st2)
  else
    (some none_event, st2)

/-- Modelled from the spec's words for the refinement comparison of claim C3:
the variant recognizer built on recognize_emit_variant. -/
def recognize_variant (st : RecState) (hands_data : List Hand) :
    Option (Option Gesture × RecState) :=
  if hands_data.length = 0 then some (Option.none, st)
  else
    match candidate hands_data with
    | some gesture => some (recognize_emit_variant st gesture)
    | Option.none => Option.none

/-- A sequence of GestureRecognizer.recognize calls on one recognizer
instance, threading the mutable state; returns the list of per-call results
(outer Option models a raised exception, which aborts the sequence) and the
final state. -/
def recognize_run : RecState → List (List Hand) → List (Option (Option Gesture)) × RecState
  | st, [] => ([], st)
  | st, i :: rest =>
    match recognize st i with
    | Option.none => ([Option.none], st)
    | some (g, st2) =>
      let r := recognize_run st2 rest
      (some g :: r.1, r.2)

/-- Primary hand dictionary whose landmark list is the all-origin list. -/
def hand0 : Hand :=
  { landmarks := zero_landmarks, label := "Right", wrist := lz,
    index_tip := lz, thumb_tip := lz, middle_tip := lz }

/-- Hands list with the single all-origin hand: its classifier candidate is a
pinch gesture on every cycle. -/
def hd0 : List Hand := [hand0]

/-- The pinch candidate produced by the classifier on zero_landmarks. -/
def g0 : Gesture :=
  { type := GestureType.pinch
    distance := some (calculate_distance (lm zero_landmarks 4) (lm zero_landmarks 8))
    position := some (((lm zero_landmarks 4).x + (lm zero_landmarks 8).x) / 2,
                      ((lm zero_landmarks 4).y + (lm zero_landmarks 8).y) / 2) }

/-- Capacity self.history_size = 6 from HandTracker.__init__. -/
def history_size : ℕ := 6

/-- Lines 108-113 of HandTracker._smooth_landmarks: append the current
landmarks to self.landmark_history and pop the oldest entry (index 0) when
the history exceeds history_size. -/
def smooth_window (hist : List (List Landmark)) (landmarks : List Landmark) :
    List (List Landmark) :=
  let h1 := hist ++ [landmarks]
  if history_size < h1.length then h1.tail else h1

/-- Lines 119-132 of HandTracker._smooth_landmarks: for each landmark index,
average each coordinate across all history entries.  Indexing h[i] into a
history entry can raise, hence the Option result. -/
def smoothed_of (hist : List (List Landmark)) (landmarks : List Landmark) :
    Option (List Landmark) :=
  (List.range landmarks.length).mapM fun i =>
    match hist.mapM (fun h => h.get? i) with
    | Option.none => Option.none
    | some hs =>
      some { x := (hs.map Landmark.x).sum / (hist.length : ℝ)
             y := (hs.map Landmark.y).sum / (hist.length : ℝ)
             z := (hs.map Landmark.z).sum / (hist.length : ℝ) }

/-- HandTracker._smooth_landmarks: update the bounded history window, then
return the input unchanged when fewer than 2 samples are present, otherwise
the moving average over the window.  Returns the new window together with
the result. -/
def smooth_landmarks (hist : List (List Landmark)) (landmarks : List Landmark) :
    List (List Landmark) × Option (List Landmark) :=
  let h2 := smooth_window hist landmarks
  if h2.length < 2 then (h2, some landmarks) else (h2, smoothed_of h2 landmarks)

/-- A sequence of HandTracker._smooth_landmarks calls on one tracker
instance, threading self.landmark_history; returns the final history. -/
def smooth_run : List (List Landmark) → List (List Landmark) → List (List Landmark)
  | hist, [] => hist
  | hist, x :: rest => smooth_run (smooth_landmarks hist x).1 rest

/-- Target frame rate target_fps = 60 from stream_camera in app.py. -/
def target_fps : ℝ := 60

/-- Frame period frame_time = 1.0 / target_fps from stream_camera. -/
def frame_time : ℝ := 1.0 / target_fps

/-- Line 180 of app.py stream_camera: sleep_time = max(0, frame_time - elapsed). -/
def sleep_time (elapsed : ℝ) : ℝ := max 0 (frame_time - elapsed)

/-- Lines 181-185 of app.py stream_camera: sleep for sleep_time when it is
positive, otherwise yield with a zero-duration sleep. -/
def yield_duration (elapsed : ℝ) : ℝ :=
  if 0 < sleep_time elapsed then sleep_time elapsed else 0

/-- One raw detected hand from the external MediaPipe detector: its 21 raw
landmark dictionaries and its handedness label. -/
structure RawHand where
  landmarks : List Landmark
  label : String

/-- Lines 87-94 of HandTracker.get_landmarks: build one hand-data dictionary
from the smoothed landmarks; the wrist/tip entries index into the smoothed
list and can raise. -/
def build_hand (smoothed : List Landmark) (label : String) : Option Hand :=
  match smoothed.get? 0, smoothed.get? 8, smoothed.get? 4, smoothed.get? 12 with
  | some w, some it, some tt, some mt =>
      some { landmarks := smoothed, label := label, wrist := w,
             index_tip := it, thumb_tip := tt, middle_tip := mt }
  | _, _, _, _ => Option.none

/-- The per-hand loop of HandTracker.get_landmarks: smooth each detected
hand's landmarks (mutating the shared history) and build its hand-data
dictionary. -/
def get_landmarks_loop (hist : List (List Landmark)) :
    List RawHand → Option (List Hand × List (List Landmark))
  | [] => some ([], hist)
  | r :: rest =>
    match smooth_landmarks hist r.landmarks with
    | (_, Option.none) => Option.none
    | (hist2, some smoothed) =>
      match build_hand smoothed r.label with
      | Option.none => Option.none
      | some hand =>
        match get_landmarks_loop hist2 rest with
        | Option.none => Option.none
        | some (hs, histf) => some (hand :: hs, histf)

/-- HandTracker.get_landmarks: returns None (and leaves the smoothing
history untouched) when the detector reported no hands, otherwise the list
of smoothed hand-data dictionaries. -/
def get_landmarks (hist : List (List Landmark)) (detected : List RawHand) :
    Option (Option (List Hand) × List (List Landmark)) :=
  match detected with
  | [] => some (Option.none, hist)
  | _ :: _ =>
    match get_landmarks_loop hist detected with
    | some (hs, histf) => some (some hs, histf)
    | Option.none => Option.none

/-- Lines 126-132 of app.py stream_camera: run hand tracking and, only when
the landmark list is non-empty, gesture recognition; the emitted gesture
value stays None (null) otherwise.  Returns the emitted gesture value, the
smoothing history and the recognizer state after the cycle. -/
def cycle_gesture (hist : List (List Landmark)) (st : RecState)
    (detected : List RawHand) :
    Option (Option Gesture × List (List Landmark) × RecState) :=
  match get_landmarks hist detected with
  | Option.none => Option.none
  | some (landmarks_opt, hist2) =>
    match landmarks_opt with
    | Option.none => some (Option.none, hist2, st)
    | some hands =>
      if 0 < hands.length then
        match recognize st hands with
        | Option.none => Option.none
        | some (g, st2) => some (g, hist2, st2)
      else some (Option.none, hist2, st)

lemma get_eq_lm (l : List Landmark) (i : ℕ) (h : i < l.length) :
    l.get? i = some (lm l i) := by
  induction l generalizing i with
  | nil => simp at h
  | cons a t ih =>
    cases i with
    | zero => rfl
    | succ j =>
      have ht : j < t.length := by simpa using h
      simpa [lm, List.getD] using ih j ht

lemma detect_fingers_up_eq (l : List Landmark) (h21 : l.length = 21) :
    detect_fingers_up l = some
      { thumb := decide ((lm l 4).x > (lm l 3).x)
        index := decide ((lm l 8).y < (lm l 6).y)
        middle := decide ((lm l 12).y < (lm l 10).y)
        ring := decide ((lm l 16).y < (lm l 14).y)
        pinky := decide ((lm l 20).y < (lm l 18).y) } := by
  unfold detect_fingers_up
  rw [get_eq_lm l 4 (by omega), get_eq_lm l 3 (by omega), get_eq_lm l 8 (by omega),
      get_eq_lm l 6 (by omega), get_eq_lm l 12 (by omega), get_eq_lm l 10 (by omega),
      get_eq_lm l 16 (by omega), get_eq_lm l 14 (by omega), get_eq_lm l 20 (by omega),
      get_eq_lm l 18 (by omega)]

/-- Claim C1: for a 21-landmark hand with the index finger classified as
extended (tip y below PIP y), the middle, ring and pinky fingers not
extended, and thumb-tip-to-index-tip distance at least 0.05, the classifier
returns a Point gesture (never a Pinch), whose position is the index-tip
coordinates and whose direction is index tip minus index MCP (landmark 5). -/
theorem claim1_point_priority (l : List Landmark) (h21 : l.length = 21)
    (hidx : (lm l 8).y < (lm l 6).y)
    (hmid : ¬ (lm l 12).y < (lm l 10).y)
    (hring : ¬ (lm l 16).y < (lm l 14).y)
    (hpinky : ¬ (lm l 20).y < (lm l 18).y)
    (hdist : calculate_distance (lm l 4) (lm l 8) ≥ pinch_threshold) :
    classify_landmarks l =
      some { type := GestureType.point
             position := some ((lm l 8).x, (lm l 8).y)
             direction := some ((lm l 8).x - (lm l 5).x, (lm l 8).y - (lm l 5).y) } ∧
    ∀ g, classify_landmarks l = some g → g.type ≠ GestureType.pinch := by
  have key : classify_landmarks l =
      some { type := GestureType.point
             position := some ((lm l 8).x, (lm l 8).y)
             direction := some ((lm l 8).x - (lm l 5).x, (lm l 8).y - (lm l 5).y) } := by
    unfold classify_landmarks
    rw [detect_fingers_up_eq l h21]
    unfold classify_gesture
    rw [get_eq_lm l 4 (by omega), get_eq_lm l 8 (by omega), get_eq_lm l 12 (by omega),
        get_eq_lm l 0 (by omega), get_eq_lm l 5 (by omega)]
    simp only [decide_eq_true hidx, decide_eq_false hmid, decide_eq_false hring,
      decide_eq_false hpinky, decide_eq_true hdist, Bool.not_false, Bool.and_true,
      Bool.true_and, Bool.and_self, if_true]
  refine ⟨key, fun g hg => ?_⟩
  rw [key] at hg
  cases hg
  simp

lemma classify_landmarks_pinch (l : List Landmark) (h21 : l.length = 21)
    (hdist : calculate_distance (lm l 4) (lm l 8) < pinch_threshold) :
    classify_landmarks l =
      some { type := GestureType.pinch
             distance := some (calculate_distance (lm l 4) (lm l 8))
             position := some (((lm l 4).x + (lm l 8).x) / 2,
                               ((lm l 4).y + (lm l 8).y) / 2) } := by
  unfold classify_landmarks
  rw [detect_fingers_up_eq l h21]
  unfold classify_gesture
  rw [get_eq_lm l 4 (by omega), get_eq_lm l 8 (by omega), get_eq_lm l 12 (by omega),
      get_eq_lm l 0 (by omega)]
  have hnot : ¬ calculate_distance (lm l 4) (lm l 8) ≥ pinch_threshold := not_le.mpr hdist
  simp only [decide_eq_false hnot, Bool.and_false, Bool.false_and, if_false, if_pos hdist]
  simp

/-- Claim C2: for a 21-landmark hand whose thumb-tip-to-index-tip distance is
strictly below 0.05, the classifier returns a Pinch gesture regardless of the
finger-extension states, carrying that distance and the midpoint of thumb tip
and index tip. -/
theorem claim2_pinch_below_threshold (l : List Landmark) (h21 : l.length = 21)
    (hdist : calculate_distance (lm l 4) (lm l 8) < pinch_threshold) :
    classify_landmarks l =
      some { type := GestureType.pinch
             distance := some (calculate_distance (lm l 4) (lm l 8))
             position := some (((lm l 4).x + (lm l 8).x) / 2,
                               ((lm l 4).y + (lm l 8).y) / 2) } :=
  classify_landmarks_pinch l h21 hdist

lemma c1lms_dist : calculate_distance (lm c1lms 4) (lm c1lms 8) = 3/10 := by
  show Real.sqrt ((0 - 3/10) * (0 - 3/10) + (0 - 0) * (0 - 0) + (0 - 0) * (0 - 0)) = 3/10
  rw [show ((0:ℝ) - 3/10) * (0 - 3/10) + (0 - 0) * (0 - 0) + (0 - 0) * (0 - 0) = (3/10)^2
        by norm_num]
  exact Real.sqrt_sq (by norm_num)

/-- Witness for claim1_point_priority at the concrete landmark list c1lms. -/
theorem claim1_witness :
    classify_landmarks c1lms =
      some { type := GestureType.point
             position := some ((lm c1lms 8).x, (lm c1lms 8).y)
             direction := some ((lm c1lms 8).x - (lm c1lms 5).x,
                                (lm c1lms 8).y - (lm c1lms 5).y) } ∧
    ∀ g, classify_landmarks c1lms = some g → g.type ≠ GestureType.pinch := by
  refine claim1_point_priority c1lms rfl ?_ ?_ ?_ ?_ ?_
  · show (0:ℝ) < 1
    norm_num
  · show ¬ (0:ℝ) < 0
    norm_num
  · show ¬ (0:ℝ) < 0
    norm_num
  · show ¬ (0:ℝ) < 0
    norm_num
  · rw [c1lms_dist]
    norm_num [pinch_threshold]

lemma zero_landmarks_dist : calculate_distance (lm zero_landmarks 4) (lm zero_landmarks 8) = 0 := by
  show Real.sqrt ((0 - 0) * (0 - 0) + (0 - 0) * (0 - 0) + (0 - 0) * (0 - 0)) = 0
  norm_num

/-- Witness for claim2_pinch_below_threshold at the all-origin landmark list. -/
theorem claim2_witness :
    classify_landmarks zero_landmarks =
      some { type := GestureType.pinch
             distance := some (calculate_distance (lm zero_landmarks 4) (lm zero_landmarks 8))
             position := some (((lm zero_landmarks 4).x + (lm zero_landmarks 8).x) / 2,
                               ((lm zero_landmarks 4).y + (lm zero_landmarks 8).y) / 2) } := by
  refine claim2_pinch_below_threshold zero_landmarks rfl ?_
  rw [zero_landmarks_dist]
  norm_num [pinch_threshold]

lemma update_confidence_last (st : RecState) (gesture : Gesture) :
    (update_confidence st gesture).last_gesture = some gesture.type := by
  unfold update_confidence
  split
  · next h => simpa using h.symm
  · rfl

/-- Claim C3: after the confidence update, last_gesture always equals the
candidate's type, so the disjunct comparing the candidate type with
last_gesture in the emission decision is always false; hence recognize is
observationally equal to the variant that emits the candidate exactly when
the updated confidence reaches min_confidence (0.2). -/
theorem claim3_dead_disjunct :
    (∀ (st : RecState) (gesture : Gesture),
        (update_confidence st gesture).last_gesture = some gesture.type) ∧
    ∀ (st : RecState) (hands_data : List Hand),
        recognize st hands_data = recognize_variant st hands_data := by
  refine ⟨update_confidence_last, fun st hands_data => ?_⟩
  unfold recognize recognize_variant
  split
  · rfl
  · cases hc : candidate hands_data with
    | none => rfl
    | some gesture =>
      have hemit : recognize_emit st gesture = recognize_emit_variant st gesture := by
        unfold recognize_emit recognize_emit_variant
        simp only [update_confidence_last st gesture]
        simp
      show some (recognize_emit st gesture) = some (recognize_emit_variant st gesture)
      rw [hemit]

lemma recognize_emit_snd (st : RecState) (g : Gesture) :
    (recognize_emit st g).2 = update_confidence st g := by
  simp only [recognize_emit]
  split
  · split
    · rfl
    · rfl
  · rfl

lemma update_confidence_bounds (st : RecState) (g : Gesture)
    (h0 : 0 ≤ st.gesture_confidence) (h1 : st.gesture_confidence ≤ 1) :
    0 ≤ (update_confidence st g).gesture_confidence ∧
    (update_confidence st g).gesture_confidence ≤ 1 := by
  unfold update_confidence
  split
  · show 0 ≤ min 1.0 (st.gesture_confidence + confidence_increment) ∧
      min 1.0 (st.gesture_confidence + confidence_increment) ≤ 1
    have hi : confidence_increment = 0.15 := rfl
    constructor
    · refine le_min (by norm_num) (by rw [hi]; linarith)
    · exact le_trans (min_le_left _ _) (by norm_num)
  · show 0 ≤ max 0.0 (st.gesture_confidence - confidence_decrement) ∧
      max 0.0 (st.gesture_confidence - confidence_decrement) ≤ 1
    have hd : confidence_decrement = 0.15 := rfl
    constructor
    · exact le_trans (by norm_num) (le_max_left _ _)
    · refine max_le (by norm_num) (by rw [hd]; linarith)

lemma recognize_state (st : RecState) (hd : List Hand) (g : Option Gesture) (st2 : RecState)
    (h : recognize st hd = some (g, st2)) :
    st2 = st ∨ ∃ gc, st2 = update_confidence st gc := by
  unfold recognize at h
  split at h
  · cases h
    exact Or.inl rfl
  · revert h
    cases hc : candidate hd with
    | none => intro h; cases h
    | some gc =>
      intro h
      have hp : recognize_emit st gc = (g, st2) := Option.some.inj h
      right
      refine ⟨gc, ?_⟩
      have h2 := recognize_emit_snd st gc
      rw [hp] at h2
      exact h2

lemma recognize_run_conf_bounds : ∀ (ins : List (List Hand)) (st : RecState),
    0 ≤ st.gesture_confidence → st.gesture_confidence ≤ 1 →
    0 ≤ (recognize_run st ins).2.gesture_confidence ∧
    (recognize_run st ins).2.gesture_confidence ≤ 1
  | [], st, h0, h1 => ⟨h0, h1⟩
  | i :: rest, st, h0, h1 => by
    unfold recognize_run
    cases hr : recognize st i with
    | none => exact ⟨h0, h1⟩
    | some p =>
      obtain ⟨g, st2⟩ := p
      have hb : 0 ≤ st2.gesture_confidence ∧ st2.gesture_confidence ≤ 1 := by
        rcases recognize_state st i g st2 hr with rfl | ⟨gc, rfl⟩
        · exact ⟨h0, h1⟩
        · exact update_confidence_bounds st gc h0 h1
      have hrec := recognize_run_conf_bounds rest st2 hb.1 hb.2
      simpa using hrec

/-- Claim C6: starting from the freshly initialized recognizer state, the
confidence field stays within the closed interval from 0 to 1 after every
sequence of recognize calls (each update clamps with min 1.0 or max 0.0). -/
theorem claim6_confidence_bounds (inputs : List (List Hand)) :
    0 ≤ (recognize_run initial_state inputs).2.gesture_confidence ∧
    (recognize_run initial_state inputs).2.gesture_confidence ≤ 1 :=
  recognize_run_conf_bounds inputs initial_state (by norm_num [initial_state])
    (by norm_num [initial_state])

lemma recognize_emit_eval (st : RecState) (g : Gesture) (hne : g.type ≠ GestureType.none) :
    recognize_emit st g =
      if min_confidence ≤ (update_confidence st g).gesture_confidence then
        (some { g with confidence := some (update_confidence st g).gesture_confidence },
         update_confidence st g)
      else (some none_event, update_confidence st g) := by
  simp only [recognize_emit, update_confidence_last st g]
  rw [if_pos hne]
  simp [ge_iff_le]

lemma recognize_of_candidate (st : RecState) (hd : List Hand) (g : Gesture)
    (hne : hd.length ≠ 0) (hc : candidate hd = some g) :
    recognize st hd = some (recognize_emit st g) := by
  unfold recognize
  rw [if_neg hne, hc]

lemma emit_pinch_first (g : Gesture) (ht : g.type = GestureType.pinch) :
    recognize_emit initial_state g = (some none_event, ⟨some GestureType.pinch, 0⟩) := by
  have hupd : update_confidence initial_state g = ⟨some GestureType.pinch, 0⟩ := by
    unfold update_confidence initial_state
    rw [if_neg (by simp), ht]
    congr 1
    show max 0.0 ((0:ℝ) - confidence_decrement) = 0
    rw [max_eq_left (by norm_num [confidence_decrement])]
    norm_num
  rw [recognize_emit_eval _ _ (by rw [ht]; simp), hupd]
  rw [if_neg (by norm_num [min_confidence])]

lemma emit_pinch_same (g : Gesture) (ht : g.type = GestureType.pinch) (c c2 : ℝ)
    (hc2 : min 1.0 (c + confidence_increment) = c2) :
    recognize_emit ⟨some GestureType.pinch, c⟩ g =
      if min_confidence ≤ c2 then
        (some { g with confidence := some c2 }, ⟨some GestureType.pinch, c2⟩)
      else (some none_event, ⟨some GestureType.pinch, c2⟩) := by
  have hupd : update_confidence ⟨some GestureType.pinch, c⟩ g = ⟨some GestureType.pinch, c2⟩ := by
    unfold update_confidence
    rw [if_pos (by simp [ht])]
    show (⟨some GestureType.pinch, min 1.0 (c + confidence_increment)⟩ : RecState) = _
    rw [hc2]
  rw [recognize_emit_eval _ _ (by rw [ht]; simp), hupd]

lemma recognize_run_five_pinch (hd : List Hand) (g : Gesture)
    (hne : hd.length ≠ 0) (hc : candidate hd = some g) (ht : g.type = GestureType.pinch) :
    recognize_run initial_state [hd, hd, hd, hd, hd] =
      ([some (some none_event), some (some none_event),
        some (some { g with confidence := some 0.3 }),
        some (some { g with confidence := some 0.45 }),
        some (some { g with confidence := some 0.6 })],
       ⟨some GestureType.pinch, 0.6⟩) := by
  have e1 : recognize initial_state hd = some (some none_event, ⟨some GestureType.pinch, 0⟩) := by
    rw [recognize_of_candidate _ _ _ hne hc, emit_pinch_first g ht]
  have e2 : recognize ⟨some GestureType.pinch, 0⟩ hd =
      some (some none_event, ⟨some GestureType.pinch, 0.15⟩) := by
    rw [recognize_of_candidate _ _ _ hne hc,
        emit_pinch_same g ht 0 0.15
          (by rw [min_eq_right (by norm_num [confidence_increment])]
              norm_num [confidence_increment]),
        if_neg (by norm_num [min_confidence])]
  have e3 : recognize ⟨some GestureType.pinch, 0.15⟩ hd =
      some (some { g with confidence := some 0.3 }, ⟨some GestureType.pinch, 0.3⟩) := by
    rw [recognize_of_candidate _ _ _ hne hc,
        emit_pinch_same g ht 0.15 0.3
          (by rw [min_eq_right (by norm_num [confidence_increment])]
              norm_num [confidence_increment]),
        if_pos (by norm_num [min_confidence])]
  have e4 : recognize ⟨some GestureType.pinch, 0.3⟩ hd =
      some (some { g with confidence := some 0.45 }, ⟨some GestureType.pinch, 0.45⟩) := by
    rw [recognize_of_candidate _ _ _ hne hc,
        emit_pinch_same g ht 0.3 0.45
          (by rw [min_eq_right (by norm_num [confidence_increment])]
              norm_num [confidence_increment]),
        if_pos (by norm_num [min_confidence])]
  have e5 : recognize ⟨some GestureType.pinch, 0.45⟩ hd =
      some (some { g with confidence := some 0.6 }, ⟨some GestureType.pinch, 0.6⟩) := by
    rw [recognize_of_candidate _ _ _ hne hc,
        emit_pinch_same g ht 0.45 0.6
          (by rw [min_eq_right (by norm_num [confidence_increment])]
              norm_num [confidence_increment]),
        if_pos (by norm_num [min_confidence])]
  simp only [recognize_run, e1, e2, e3, e4, e5]

lemma candidate_hd0 : candidate hd0 = some g0 := by
  have h := classify_landmarks_pinch zero_landmarks rfl
    (by rw [zero_landmarks_dist]; norm_num [pinch_threshold])
  unfold candidate
  show classify_landmarks hand0.landmarks = some g0
  exact h

/-- Counterexample to claim C4 as stated: on five consecutive cycles whose
candidate is Pinch, starting from the freshly initialized state, the
confidence after the fifth cycle is 0.60 rather than 0.75, and the second
cycle's output is still the suppressed canonical none event rather than an
emitted Pinch (the first cycle decrements from confidence 0 because
last_gesture is still None). -/
theorem claim4_counterexample :
    (recognize_run initial_state [hd0, hd0, hd0, hd0, hd0]).2.gesture_confidence ≠ 0.75 ∧
    (recognize_run initial_state [hd0, hd0, hd0, hd0, hd0]).1.get? 1 =
      some (some (some none_event)) := by
  have h := recognize_run_five_pinch hd0 g0 (by simp [hd0]) candidate_hd0 rfl
  rw [h]
  constructor
  · show (0.6 : ℝ) ≠ 0.75
    norm_num
  · rfl

/-- Claim C4 (amended): starting from the freshly initialized stabilizer
state, five consecutive cycles whose classifier candidate is Pinch yield
confidence 0.60 after the fifth cycle (the first cycle decrements from 0
because last_gesture is still None, then four increments of 0.15 follow);
the first two cycles are suppressed to the canonical None event (confidence
0 and 0.15 are below 0.2), and from the third cycle onward a Pinch event is
emitted every cycle with confidences 0.30, 0.45, 0.60. -/
theorem claim4_amended (hd : List Hand) (g : Gesture)
    (hne : hd.length ≠ 0) (hc : candidate hd = some g) (ht : g.type = GestureType.pinch) :
    recognize_run initial_state [hd, hd, hd, hd, hd] =
      ([some (some none_event), some (some none_event),
        some (some { g with confidence := some 0.3 }),
        some (some { g with confidence := some 0.45 }),
        some (some { g with confidence := some 0.6 })],
       ⟨some GestureType.pinch, 0.6⟩) :=
  recognize_run_five_pinch hd g hne hc ht

/-- Witness for claim4_amended at the concrete all-origin hand input. -/
theorem claim4_witness :
    recognize_run initial_state [hd0, hd0, hd0, hd0, hd0] =
      ([some (some none_event), some (some none_event),
        some (some { g0 with confidence := some 0.3 }),
        some (some { g0 with confidence := some 0.45 }),
        some (some { g0 with confidence := some 0.6 })],
       ⟨some GestureType.pinch, 0.6⟩) :=
  claim4_amended hd0 g0 (by simp [hd0]) candidate_hd0 rfl

lemma smooth_landmarks_fst (hist : List (List Landmark)) (x : List Landmark) :
    (smooth_landmarks hist x).1 = smooth_window hist x := by
  simp only [smooth_landmarks]
  split <;> rfl

lemma smooth_landmarks_snd (hist : List (List Landmark)) (x : List Landmark) :
    (smooth_landmarks hist x).2 =
      if (smooth_window hist x).length < 2 then some x
      else smoothed_of (smooth_window hist x) x := by
  simp only [smooth_landmarks]
  split <;> rfl

lemma smooth_window_len_le (hist : List (List Landmark)) (x : List Landmark)
    (h : hist.length ≤ history_size) :
    (smooth_window hist x).length ≤ history_size := by
  simp only [smooth_window]
  split
  · next hgt =>
    rw [List.length_tail, List.length_append]
    simp only [List.length_singleton]
    omega
  · next hle =>
    omega

lemma smooth_run_len_le : ∀ (ins hist : List (List Landmark)),
    hist.length ≤ history_size → (smooth_run hist ins).length ≤ history_size
  | [], _, h => h
  | x :: rest, hist, h => by
    show (smooth_run (smooth_landmarks hist x).1 rest).length ≤ history_size
    rw [smooth_landmarks_fst]
    exact smooth_run_len_le rest _ (smooth_window_len_le hist x h)

/-- Claim C7: over every sequence of smoothing calls starting from the empty
history, the window length never exceeds the capacity 6; and on overflow
(window already at capacity) the evicted sample is the oldest one, i.e. the
new window is the old window's tail followed by the new sample. -/
theorem claim7_window_bound :
    (∀ inputs : List (List Landmark), (smooth_run [] inputs).length ≤ history_size) ∧
    ∀ (hist : List (List Landmark)) (x : List Landmark), hist.length = history_size →
      (smooth_landmarks hist x).1 = hist.tail ++ [x] := by
  constructor
  · intro inputs
    exact smooth_run_len_le inputs [] (by simp)
  · intro hist x hlen
    rw [smooth_landmarks_fst]
    unfold smooth_window
    rw [if_pos (by rw [List.length_append, hlen]; norm_num)]
    cases hist with
    | nil => simp [history_size] at hlen
    | cons a t => rfl

/-- Witness for claim7_window_bound: a run of 7 inputs stays within the
capacity, and a full 6-entry window evicts its head on the next call. -/
theorem claim7_witness :
    (smooth_run [] [[], [], [], [], [], [], []]).length ≤ history_size ∧
    (smooth_landmarks [[], [], [], [], [], []] [lz]).1 =
      ([[], [], [], [], [], []] : List (List Landmark)).tail ++ [[lz]] :=
  ⟨claim7_window_bound.1 [[], [], [], [], [], [], []],
   claim7_window_bound.2 [[], [], [], [], [], []] [lz] rfl⟩

lemma smooth_window_closed (hist : List (List Landmark)) (x : List Landmark)
    (h : hist.length ≤ history_size) :
    smooth_window hist x = (hist ++ [x]).drop (hist.length + 1 - history_size) := by
  simp only [smooth_window]
  split
  · next hgt =>
    rw [List.length_append, List.length_singleton] at hgt
    have hd : hist.length + 1 - history_size = 1 := by
      simp only [history_size] at *
      omega
    rw [hd, List.drop_one]
  · next hle =>
    rw [List.length_append, List.length_singleton] at hle
    have hd : hist.length + 1 - history_size = 0 := by
      simp only [history_size] at *
      omega
    rw [hd, List.drop_zero]

lemma smooth_run_replicate (x : List Landmark) : ∀ (n : ℕ) (hist : List (List Landmark)),
    hist.length ≤ history_size →
    smooth_run hist (List.replicate n x) =
      (hist ++ List.replicate n x).drop (hist.length + n - history_size)
  | 0, hist, h => by
    have hd : hist.length + 0 - history_size = 0 := by
      simp only [history_size] at h ⊢
      omega
    rw [List.replicate_zero, List.append_nil, hd, List.drop_zero]
    rfl
  | n + 1, hist, h => by
    rw [List.replicate_succ]
    show smooth_run (smooth_landmarks hist x).1 (List.replicate n x) = _
    rw [smooth_landmarks_fst, smooth_window_closed hist x h]
    have hlen2 : ((hist ++ [x]).drop (hist.length + 1 - history_size)).length ≤ history_size := by
      rw [List.length_drop, List.length_append, List.length_singleton]
      simp only [history_size] at *
      omega
    rw [smooth_run_replicate x n _ hlen2]
    rw [List.length_drop, List.length_append, List.length_singleton]
    rw [← List.drop_append_of_le_length (by
      rw [List.length_append, List.length_singleton]
      simp only [history_size] at *
      omega)]
    rw [List.drop_drop, List.append_assoc, List.singleton_append]
    congr 1
    simp only [history_size] at *
    omega

lemma mapM_map_option {α β γ : Type} (f : α → β) (g : β → Option γ) :
    ∀ l : List α, (l.map f).mapM g = l.mapM (fun a => g (f a))
  | [] => rfl
  | a :: t => by
    simp only [List.map_cons, List.mapM_cons, mapM_map_option f g t]

lemma mapM_range_get {α : Type} : ∀ (l : List α) (F : ℕ → Option α),
    (∀ i, i < l.length → F i = l.get? i) →
    (List.range l.length).mapM F = some l
  | [], _, _ => rfl
  | a :: t, F, h => by
    have h0 : F 0 = some a := h 0 (by simp)
    have hrec := mapM_range_get t (fun i => F (i + 1)) (fun i hi => h (i + 1) (by simpa using hi))
    show (List.range (t.length + 1)).mapM F = some (a :: t)
    rw [List.range_succ_eq_map t.length, List.mapM_cons, h0, mapM_map_option]
    simp only [Nat.succ_eq_add_one]
    rw [hrec]
    rfl

lemma mapM_get_all_eq (lms : List Landmark) (i : ℕ) (hi : i < lms.length) :
    ∀ (hist : List (List Landmark)), (∀ h ∈ hist, h = lms) →
      hist.mapM (fun h => h.get? i) = some (List.replicate hist.length (lm lms i))
  | [], _ => rfl
  | hd :: t, hall => by
    have hhd : hd = lms := hall hd (by simp)
    have ht := mapM_get_all_eq lms i hi t (fun h hm => hall h (by simp [hm]))
    rw [List.mapM_cons, hhd, get_eq_lm lms i hi, ht]
    rfl

lemma smoothed_of_all_eq (hist : List (List Landmark)) (lms : List Landmark)
    (hne : hist ≠ []) (hall : ∀ h ∈ hist, h = lms) :
    smoothed_of hist lms = some lms := by
  unfold smoothed_of
  apply mapM_range_get
  intro i hi
  rw [mapM_get_all_eq lms i hi hist hall, get_eq_lm lms i hi]
  have hn : (hist.length : ℝ) ≠ 0 :=
    Nat.cast_ne_zero.mpr (Nat.pos_iff_ne_zero.mp (List.length_pos.mpr hne))
  simp only [List.map_replicate, List.sum_replicate, nsmul_eq_mul]
  conv_rhs => rw [show lm lms i = ⟨(lm lms i).x, (lm lms i).y, (lm lms i).z⟩ from rfl]
  congr 1
  congr 1
  · exact mul_div_cancel_left₀ _ hn
  · exact mul_div_cancel_left₀ _ hn
  · exact mul_div_cancel_left₀ _ hn

lemma smoothed_of_replicate (lms : List Landmark) :
    smoothed_of (List.replicate history_size lms) lms = some lms :=
  smoothed_of_all_eq (List.replicate history_size lms) lms (by simp [history_size])
    (fun _ hm => List.eq_of_mem_replicate hm)

lemma smooth_run_append : ∀ (a b hist : List (List Landmark)),
    smooth_run hist (a ++ b) = smooth_run (smooth_run hist a) b
  | [], _, _ => rfl
  | x :: t, b, hist => by
    show smooth_run (smooth_landmarks hist x).1 (t ++ b) = _
    rw [smooth_run_append t b _]
    rfl

/-- Claim C8: for every input sequence that ends in 6 consecutive identical
raw landmark samples, the window then contains only identical entries and
the smoother's output on the last of those samples is exactly the raw
sample (the arithmetic mean over identical entries reproduces it). -/
theorem claim8_identity_smoothing (pre : List (List Landmark)) (lms : List Landmark) :
    (smooth_landmarks (smooth_run [] (pre ++ List.replicate 5 lms)) lms).2 = some lms := by
  have hlen : (smooth_run [] pre).length ≤ history_size := smooth_run_len_le pre [] (by simp)
  rw [smooth_run_append pre (List.replicate 5 lms) []]
  set h0 := smooth_run [] pre with hh0
  have hwin : smooth_window (smooth_run h0 (List.replicate 5 lms)) lms =
      List.replicate history_size lms := by
    have h1 : smooth_run h0 (List.replicate 6 lms) =
        smooth_window (smooth_run h0 (List.replicate 5 lms)) lms := by
      rw [show List.replicate 6 lms = List.replicate 5 lms ++ [lms] from
            List.replicate_succ' 5 lms]
      rw [smooth_run_append (List.replicate 5 lms) [lms] h0]
      simp only [smooth_run]
      rw [smooth_landmarks_fst]
    rw [← h1, smooth_run_replicate lms 6 h0 hlen]
    have hd : h0.length + 6 - history_size = h0.length := by simp [history_size]
    rw [hd]
    exact List.drop_left h0 (List.replicate 6 lms)
  rw [smooth_landmarks_snd, hwin]
  rw [if_neg (by simp [history_size])]
  exact smoothed_of_replicate lms

/-- Claim C9: in every pacer cycle the computed sleep duration equals
max(0, targetFramePeriod - elapsedThisCycle), hence is never negative, and
when it is zero the loop yields with a zero duration instead of
busy-spinning. -/
theorem claim9_sleep_nonneg (elapsed : ℝ) :
    sleep_time elapsed = max 0 (frame_time - elapsed) ∧
    0 ≤ sleep_time elapsed ∧
    (sleep_time elapsed = 0 → yield_duration elapsed = 0) :=
  ⟨rfl, le_max_left 0 _, fun h => by simp [yield_duration, h]⟩

/-- Witness for claim9_sleep_nonneg at elapsed = frame_time, where the
computed sleep duration is zero. -/
theorem claim9_witness : yield_duration frame_time = 0 :=
  (claim9_sleep_nonneg frame_time).2.2 (by simp [sleep_time])

/-- Counterexample to claim C5 as stated: when the detector reports no hand,
the pipeline does not emit a gesture event with type none and confidence 0
(the canonical none_event dictionary); the emitted gesture value is the
null value None. -/
theorem claim5_counterexample :
    ¬ ∃ (hist2 : List (List Landmark)) (st2 : RecState),
        cycle_gesture [] initial_state [] = some (some none_event, hist2, st2) := by
  intro ⟨hist2, st2, h⟩
  have he : cycle_gesture [] initial_state [] = some (Option.none, [], initial_state) := rfl
  rw [he] at h
  simp at h

/-- Claim C5 (amended): when no hand is detected in a cycle, this is not an
error: the pipeline emits the null gesture value None (not a dictionary
with type none and confidence 0), and neither the smoothing window nor the
recognizer state is touched (smoothing and classification are not
invoked). -/
theorem claim5_amended (hist : List (List Landmark)) (st : RecState) :
    cycle_gesture hist st [] = some (Option.none, hist, st) := rfl

lemma classify_landmarks_total (l : List Landmark) (h21 : l.length = 21) :
    ∃ g, classify_landmarks l = some g ∧
      (g.type = GestureType.point ∨ g.type = GestureType.pinch ∨
       g.type = GestureType.two_fingers ∨ g.type = GestureType.open_palm ∨
       g.type = GestureType.none) := by
  unfold classify_landmarks
  rw [detect_fingers_up_eq l h21]
  unfold classify_gesture
  rw [get_eq_lm l 4 (by omega), get_eq_lm l 8 (by omega), get_eq_lm l 12 (by omega),
      get_eq_lm l 0 (by omega), get_eq_lm l 5 (by omega)]
  dsimp only
  split_ifs <;> exact ⟨_, rfl, by simp⟩

lemma recognize_emit_type (st : RecState) (g : Gesture) :
    ∃ g2, (recognize_emit st g).1 = some g2 ∧
      (g2.type = g.type ∨ g2.type = GestureType.none) := by
  simp only [recognize_emit]
  split
  · split
    · exact ⟨_, rfl, Or.inl rfl⟩
    · exact ⟨_, rfl, Or.inr rfl⟩
  · exact ⟨_, rfl, Or.inr rfl⟩

/-- Claim C10: for every non-empty hands list whose primary hand carries
exactly 21 landmarks, recognize is total: no landmark index access fails, no
exception is raised, and the returned dictionary's type field is one of
point, pinch, two_fingers, open_palm, none. -/
theorem claim10_total (st : RecState) (hands : List Hand) (hand : Hand)
    (h0 : hands.get? 0 = some hand) (h21 : hand.landmarks.length = 21) :
    ∃ g st2, recognize st hands = some (some g, st2) ∧
      (g.type = GestureType.point ∨ g.type = GestureType.pinch ∨
       g.type = GestureType.two_fingers ∨ g.type = GestureType.open_palm ∨
       g.type = GestureType.none) := by
  have hlt : 0 < hands.length := by
    obtain ⟨hlt, -⟩ := List.get?_eq_some.mp h0
    exact hlt
  obtain ⟨gc, hgc, hty⟩ := classify_landmarks_total hand.landmarks h21
  have hcand : candidate hands = some gc := by
    unfold candidate
    rw [h0]
    exact hgc
  obtain ⟨g2, hg2, hty2⟩ := recognize_emit_type st gc
  refine ⟨g2, (recognize_emit st gc).2, ?_, ?_⟩
  · unfold recognize
    rw [if_neg (by omega), hcand]
    have hpair : recognize_emit st gc = (some g2, (recognize_emit st gc).2) := by
      rw [show recognize_emit st gc =
            ((recognize_emit st gc).1, (recognize_emit st gc).2) from rfl, hg2]
    exact congrArg some hpair
  · rcases hty2 with h | h
    · rw [h]
      exact hty
    · rw [h]
      simp

/-- Witness for claim10_total at the concrete one-hand input hd0. -/
theorem claim10_witness :
    ∃ g st2, recognize initial_state hd0 = some (some g, st2) ∧
      (g.type = GestureType.point ∨ g.type = GestureType.pinch ∨
       g.type = GestureType.two_fingers ∨ g.type = GestureType.open_palm ∨
       g.type = GestureType.none) :=
  claim10_total initial_state hd0 hand0 rfl rfl
